import Mathlib

/-!
Verification of the ACR (Agent Curated Registry) trust service core against
its specification.  The definitions below are a shallow embedding of the
TypeScript source: the trust aggregation functions (`getDecisionHint`,
`queryTrust`, `queryEntityTrust`, `queryTopEntities` from the trust module),
the top-N route validation (`trustTopQuerySchema` bounds from the schema and
route modules), and the x402 payment middleware (`x402Middleware` from the
payments module).  JavaScript numbers are modelled as exact rationals; the
JavaScript expression `Math.round(x * 10000) / 10000` is modelled by
`round4`, where `jsRound` is the ECMAScript `Math.round` (round to nearest
integer, ties toward positive infinity).  Database reads are modelled as
pure functions over an explicit in-memory store whose lists carry the
(otherwise unspecified) read order; the SQL `ORDER BY score DESC` of the
top-N query is modelled as a stable sort on that read order, reflecting
that the source supplies no secondary sort key.
-/

/- ## Decision hints -/

inductive Hint where
  | allow
  | allow_with_limit
  | review
  | deny
deriving DecidableEq

/-- Numeric rank of a hint: higher rank means a more permissive tier. -/
def hintRank : Hint → ℕ
  | .deny => 0
  | .review => 1
  | .allow_with_limit => 2
  | .allow => 3

structure Thresholds where
  allow : ℚ
  limit : ℚ
  review : ℚ
deriving DecidableEq

/-- The contextual threshold table of `getDecisionHint` (trust module):
`copy_trading`, `token_analysis`, `kyc`, `rugger_check` have explicit rows,
every other context falls back to the `default` row. -/
def thresholdsFor (context : String) : Thresholds :=
  if context = "copy_trading" then ⟨7/10, 4/10, 2/10⟩
  else if context = "token_analysis" then ⟨6/10, 3/10, 1/10⟩
  else if context = "kyc" then ⟨8/10, 5/10, 3/10⟩
  else if context = "rugger_check" then ⟨0, 0, 3/10⟩
  else ⟨6/10, 3/10, 1/10⟩

/-- Function getDecisionHint(score, context) from the trust module: the special
inverted branch for `rugger_check`, then the three closed-below threshold
comparisons. -/
def getDecisionHint (score : ℚ) (context : String) : Hint :=
  let t := thresholdsFor context
  if context = "rugger_check" then
    if score ≥ t.review then .deny
    else if score > 0 then .review
    else .allow
  else if score ≥ t.allow then .allow
  else if score ≥ t.limit then .allow_with_limit
  else if score ≥ t.review then .review
  else .deny

/- ## Rounding -/

/-- ECMAScript `Math.round`: nearest integer, ties toward positive
infinity, i.e. `⌊x + 1/2⌋`. -/
def jsRound (x : ℚ) : ℤ := ⌊x + 1/2⌋

/-- The source expression `Math.round(x * 10000) / 10000` (4 decimal
places). -/
def round4 (x : ℚ) : ℚ := (jsRound (x * 10000) : ℚ) / 10000

/-- Modelled from the spec: rounding to integer with ties away from zero
(the rounding rule stated by the spec), for comparison with `jsRound`. -/
def roundHalfAwayFromZero (x : ℚ) : ℤ :=
  if x < 0 then -⌊-x + 1/2⌋ else ⌊x + 1/2⌋

/-- Modelled from the spec: round to 4 decimal places with ties away from
zero. -/
def roundAway4 (x : ℚ) : ℚ := (roundHalfAwayFromZero (x * 10000) : ℚ) / 10000

/- ## Registry store model -/

structure Registry where
  slug : String
  context : String
deriving DecidableEq

structure RegistryEntry where
  id : String
  registry : Registry
  score : ℚ
  computedAt : String
deriving DecidableEq

structure Entity where
  entityType : String
  address : String
  chain : String
  displayName : Option String
  registryEntries : List RegistryEntry
deriving DecidableEq

/-- The registry store, as read through Prisma.  The list order is the
order in which the database returns rows: unspecified by the source, so
kept abstract as part of the store value. -/
structure Store where
  entities : List Entity
deriving DecidableEq

/-- Model of prisma.entity.findFirst with the `queryTrust` where-clause:
entityType, address = identifier, chain = "solana". -/
def findEntity (s : Store) (entityType identifier : String) : Option Entity :=
  s.entities.find? fun e =>
    e.entityType == entityType && e.address == identifier && e.chain == "solana"

/-- The entry filter of the `queryTrust` include-clause:
`registry.context = context`. -/
def matchingEntries (e : Entity) (context : String) : List RegistryEntry :=
  e.registryEntries.filter fun en => en.registry.context == context

structure ProvenanceItem where
  registry : String
  record_id : String
  computed_at : String
deriving DecidableEq

structure TrustQueryResponse where
  entity_id : String
  context : String
  score : ℚ
  decision_hint : Hint
  provenance : List ProvenanceItem
deriving DecidableEq

/-- The neutral "no data" response of `queryTrust`. -/
def neutralResponse (entityType identifier context : String) : TrustQueryResponse :=
  { entity_id := entityType ++ ":" ++ identifier
    context := context
    score := 0
    decision_hint := .review
    provenance := [] }

/-- Function `queryTrust` from the trust module: find the entity, filter entries to
the requested context, and either return the neutral response or aggregate
with equal weight 1 per entry; the reported score is the rounded mean, the
decision hint is computed from the unrounded mean, provenance is pushed in
entry read order. -/
def queryTrust (s : Store) (entityType identifier context : String) :
    TrustQueryResponse :=
  match findEntity s entityType identifier with
  | none => neutralResponse entityType identifier context
  | some e =>
    let entries := matchingEntries e context
    if entries.isEmpty then neutralResponse entityType identifier context
    else
      let totalScore : ℚ := (entries.map fun en => en.score).sum
      let totalWeight : ℚ := entries.length
      let aggregatedScore : ℚ := if totalWeight > 0 then totalScore / totalWeight else 0
      { entity_id := entityType ++ ":" ++ identifier
        context := context
        score := round4 aggregatedScore
        decision_hint := getDecisionHint aggregatedScore context
        provenance := entries.map fun en =>
          { registry := en.registry.slug
            record_id := en.id
            computed_at := en.computedAt } }

/-- Model of prisma.entity.findMany with the `queryEntityTrust` where-clause:
address, chain = "solana" (any entity type). -/
def findEntitiesByAddress (s : Store) (address : String) : List Entity :=
  s.entities.filter fun e => e.address == address && e.chain == "solana"

/-- The optional context filter of the `queryEntityTrust` include-clause. -/
def entriesForContext (e : Entity) (context : Option String) : List RegistryEntry :=
  match context with
  | some c => e.registryEntries.filter fun en => en.registry.context == c
  | none => e.registryEntries

/-- The `Map`-based grouping of entries by registry context in
`queryEntityTrust`: JavaScript `Map` iteration follows key insertion
order, and each group keeps entry arrival order. -/
def groupByContext (l : List RegistryEntry) : List (String × List RegistryEntry) :=
  l.foldl
    (fun acc en =>
      if acc.any (fun p => p.1 == en.registry.context) then
        acc.map fun p =>
          if p.1 == en.registry.context then (p.1, p.2 ++ [en]) else p
      else acc ++ [(en.registry.context, [en])])
    []

/-- Function `queryEntityTrust` from the trust module: entities by address, entries
grouped per context, one aggregated response per group (rounded mean as
score, hint from the unrounded mean). -/
def queryEntityTrust (s : Store) (address : String) (context : Option String) :
    List TrustQueryResponse :=
  (findEntitiesByAddress s address).flatMap fun e =>
    (groupByContext (entriesForContext e context)).map fun p =>
      let entries := p.2
      let totalScore : ℚ := (entries.map fun en => en.score).sum
      let avgScore : ℚ :=
        if entries.length > 0 then totalScore / (entries.length : ℚ) else 0
      { entity_id := e.entityType ++ ":" ++ e.address
        context := p.1
        score := round4 avgScore
        decision_hint := getDecisionHint avgScore p.1
        provenance := entries.map fun en =>
          { registry := en.registry.slug
            record_id := en.id
            computed_at := en.computedAt } }

/- ## Top-N query -/

/-- Model of prisma.registryEntry.findMany reading the entry table with its entity:
modelled by flattening the store in read order. -/
def allEntries (s : Store) : List (Entity × RegistryEntry) :=
  s.entities.flatMap fun e => e.registryEntries.map fun en => (e, en)

/-- The where-clause of `queryTopEntities`: registry context equals the
requested context and, when a non-empty slug list is given, the registry
slug is in it. -/
def topFilter (context : String) (registrySlugs : Option (List String))
    (p : Entity × RegistryEntry) : Bool :=
  p.2.registry.context == context &&
    (match registrySlugs with
     | some l => if l.isEmpty then true else l.contains p.2.registry.slug
     | none => true)

/-- The sort key of `queryTopEntities`: order by score descending.  The
source provides no secondary key, so ties keep read order (stable sort). -/
def scoreDesc (a b : Entity × RegistryEntry) : Prop := b.2.score ≤ a.2.score

instance : DecidableRel scoreDesc :=
  fun a b => inferInstanceAs (Decidable (b.2.score ≤ a.2.score))

instance : IsTotal (Entity × RegistryEntry) scoreDesc :=
  ⟨fun a b => le_total b.2.score a.2.score⟩

instance : IsTrans (Entity × RegistryEntry) scoreDesc :=
  ⟨fun _ _ _ h h2 => le_trans h2 h⟩

/-- The entry list produced by the `queryTopEntities` database read:
filter, order by score descending, take `limit`. -/
def topEntries (s : Store) (context : String) (limit : ℕ)
    (registrySlugs : Option (List String)) : List (Entity × RegistryEntry) :=
  (List.insertionSort scoreDesc ((allEntries s).filter (topFilter context registrySlugs))).take limit

structure TopEntityRow where
  entity_id : String
  display_name : Option String
  context : String
  score : ℚ
  decision_hint : Hint
  registry : String
  computed_at : String
deriving DecidableEq

/-- Function `queryTopEntities` from the trust module: each row reports the rounded
raw entry score and a hint computed from the raw (unrounded, unaveraged)
entry score. -/
def queryTopEntities (s : Store) (context : String) (limit : ℕ)
    (registrySlugs : Option (List String)) : List TopEntityRow :=
  (topEntries s context limit registrySlugs).map fun p =>
    { entity_id := p.1.entityType ++ ":" ++ p.1.address
      display_name := p.1.displayName
      context := context
      score := round4 p.2.score
      decision_hint := getDecisionHint p.2.score context
      registry := p.2.registry.slug
      computed_at := p.2.computedAt }

/-- The limit bound of `trustTopQuerySchema`: `z.coerce.number().min(1).max(100)`. -/
def trustTopLimitValid (limit : ℕ) : Bool := 1 ≤ limit && limit ≤ 100

/-- The `/trust/top` route handler after payment: schema validation first
(`400` on failure, before any aggregation), then `queryTopEntities`. -/
def trustTopRoute (s : Store) (context : String) (limit : ℕ)
    (registrySlugs : Option (List String)) : Except ℕ (List TopEntityRow) :=
  if trustTopLimitValid limit then
    Except.ok (queryTopEntities s context limit registrySlugs)
  else Except.error 400

/- ## x402 payment middleware -/

inductive PaymentsMode where
  | mock
  | live
deriving DecidableEq

/-- The configuration fields the middleware reads. -/
structure MwConfig where
  paymentsMode : PaymentsMode
  payaiMerchantAddress : String
  payaiNetwork : String
deriving DecidableEq

/-- USDC token addresses (fixed constants in the payments module). -/
def USDC_SOLANA : String := "EPjFWdd5AufqSSqeM2qN1xzybapC8G4wEGGkZwyTDt1v"

def USDC_SOLANA_DEVNET : String := "4zMMC9srt5Ri5X14GAgXhaHii3GnPAEERYPJgZJDncDU"

/-- The decoded X-PAYMENT payload; the middleware reads only its optional
`network` field (`undefined` or a string, possibly empty). -/
structure Payload where
  network : Option String
deriving DecidableEq

/-- JavaScript truthiness of an optional string header: absent and empty
strings are falsy. -/
def jsTruthy : Option String → Bool
  | none => false
  | some s => !(s == "")

structure MwRequest where
  xPaymentProof : Option String
  xPayment : Option String
  path : String
  resourceUrl : String
deriving DecidableEq

/-- Function `validateMockPayment`: accept any truthy proof header or payment
header; the reference is `paymentProof || paymentHeader`. -/
def validateMockPayment (req : MwRequest) : Bool × Option String :=
  if jsTruthy req.xPaymentProof then (true, req.xPaymentProof)
  else if jsTruthy req.xPayment then (true, req.xPayment)
  else (false, none)

/-- Function `usdToAtomicUnits`: the expression Math.round(usd * 1_000_000) (USDC has 6
decimals), kept as the integer value. -/
def usdToAtomicUnits (usd : ℚ) : ℤ := jsRound (usd * 1000000)

structure PaymentRequirements where
  scheme : String
  network : String
  maxAmountRequired : ℤ
  resource : String
  description : String
  mimeType : String
  payTo : String
  maxTimeoutSeconds : ℕ
  asset : String
deriving DecidableEq

structure VerifyResult where
  isValid : Bool
  payer : Option String
  invalidReason : Option String
deriving DecidableEq

structure SettleResult where
  success : Bool
  transaction : Option String
  errorReason : Option String
deriving DecidableEq

/-- The facilitator collaborator: `verifyPayment` and `settlePayment`
wrap its two endpoints (any transport failure is already absorbed into an
invalid / unsuccessful result by those wrappers). -/
structure Facilitator where
  verify : Payload → PaymentRequirements → VerifyResult
  settle : Payload → PaymentRequirements → SettleResult

structure LedgerRow where
  requestId : String
  endpoint : String
  priceUsd : ℚ
  status : String
  paymentRef : Option String
deriving DecidableEq

inductive MwOutcome where
  | granted (paymentRef : Option String) (payer : Option String)
  | denied402
deriving DecidableEq

/-- The observable effect of one middleware run: terminal outcome, the
ledger rows inserted (`prisma.paymentLog.create` calls, in order), how
many facilitator verify/settle calls were made, and the payment
requirement record built for verification (when one was). -/
structure MwResult where
  outcome : MwOutcome
  ledger : List LedgerRow
  verifyCalls : ℕ
  settleCalls : ℕ
  requirements : Option PaymentRequirements
deriving DecidableEq

/-- The JavaScript fallback `paymentPayload.network || "solana-devnet"`:
a missing or empty declared network falls back to the literal. -/
def effectiveNetwork (payload : Payload) : String :=
  match payload.network with
  | some s => if s == "" then "solana-devnet" else s
  | none => "solana-devnet"

/-- Whether a network name selects the devnet USDC address:
`network.includes("devnet")`. -/
def isDevnetNetwork (network : String) : Bool :=
  decide ("devnet".toList <:+: network.toList)

/-- The payment requirement record built in the live branch of
`x402Middleware`. -/
def buildRequirements (cfg : MwConfig) (priceUsd : ℚ) (req : MwRequest)
    (payload : Payload) : PaymentRequirements :=
  let network := effectiveNetwork payload
  { scheme := "exact"
    network := network
    maxAmountRequired := usdToAtomicUnits priceUsd
    resource := req.resourceUrl
    description := "ACR Trust Query - " ++ req.path
    mimeType := "application/json"
    payTo := cfg.payaiMerchantAddress
    maxTimeoutSeconds := 60
    asset := if isDevnetNetwork network then USDC_SOLANA_DEVNET else USDC_SOLANA }

/-- The ledger row written in the shared deny path (status `pending`). -/
def pendingRow (requestId : String) (req : MwRequest) (priceUsd : ℚ) : LedgerRow :=
  { requestId := requestId
    endpoint := req.path
    priceUsd := priceUsd
    status := "pending"
    paymentRef := none }

/-- The ledger row written on a grant (status `completed`). -/
def completedRow (requestId : String) (req : MwRequest) (priceUsd : ℚ)
    (ref : Option String) : LedgerRow :=
  { requestId := requestId
    endpoint := req.path
    priceUsd := priceUsd
    status := "completed"
    paymentRef := ref }

/-- Function `x402Middleware` from the payments module, as a pure function of the
configuration, the base64+JSON header decoder (`parsePaymentHeader`), the
facilitator, the price, the fresh request id, and the request.  Mirrors
the source control flow: mock validation in mock mode; in live mode a
truthy X-PAYMENT header is decoded, requirements are built, verify then
settle are called, and every non-granting path falls through to the
shared `pending` + 402 tail. -/
def x402Middleware (cfg : MwConfig) (parse : String → Option Payload)
    (fac : Facilitator) (priceUsd : ℚ) (requestId : String)
    (req : MwRequest) : MwResult :=
  if cfg.paymentsMode = .mock then
    let v := validateMockPayment req
    if v.1 then
      { outcome := .granted v.2 none
        ledger := [completedRow requestId req priceUsd v.2]
        verifyCalls := 0
        settleCalls := 0
        requirements := none }
    else
      { outcome := .denied402
        ledger := [pendingRow requestId req priceUsd]
        verifyCalls := 0
        settleCalls := 0
        requirements := none }
  else
    if jsTruthy req.xPayment then
      match parse (req.xPayment.getD "") with
      | some payload =>
        let reqs := buildRequirements cfg priceUsd req payload
        let verification := fac.verify payload reqs
        if verification.isValid then
          let settlement := fac.settle payload reqs
          if settlement.success then
            { outcome := .granted settlement.transaction verification.payer
              ledger := [completedRow requestId req priceUsd settlement.transaction]
              verifyCalls := 1
              settleCalls := 1
              requirements := some reqs }
          else
            { outcome := .denied402
              ledger := [pendingRow requestId req priceUsd]
              verifyCalls := 1
              settleCalls := 1
              requirements := some reqs }
        else
          { outcome := .denied402
            ledger := [pendingRow requestId req priceUsd]
            verifyCalls := 1
            settleCalls := 0
            requirements := some reqs }
      | none =>
        { outcome := .denied402
          ledger := [pendingRow requestId req priceUsd]
          verifyCalls := 0
          settleCalls := 0
          requirements := none }
    else
      { outcome := .denied402
        ledger := [pendingRow requestId req priceUsd]
        verifyCalls := 0
        settleCalls := 0
        requirements := none }

/-- Whether a middleware run granted access. -/
def MwResult.isGranted (r : MwResult) : Bool :=
  match r.outcome with
  | .granted _ _ => true
  | .denied402 => false

/- ## Claim theorems -/

/-- The threshold table row used by the inverted `rugger_check` context. -/
theorem thresholdsFor_rugger : thresholdsFor "rugger_check" = ⟨0, 0, 3/10⟩ := by
  simp [thresholdsFor]

/-- Every standard (non-inverted) threshold row is monotone:
review ≤ limit ≤ allow. -/
theorem thresholdsFor_standard_mono (context : String)
    (h : context ≠ "rugger_check") :
    (thresholdsFor context).review ≤ (thresholdsFor context).limit ∧
    (thresholdsFor context).limit ≤ (thresholdsFor context).allow := by
  unfold thresholdsFor
  by_cases h1 : context = "copy_trading"
  · simp [h1]
    norm_num
  · by_cases h2 : context = "token_analysis"
    · simp [h1, h2]
      norm_num
    · by_cases h3 : context = "kyc"
      · simp [h1, h2, h3]
        norm_num
      · simp [h1, h2, h3, h]
        norm_num

/-- Evaluation of `getDecisionHint` on the inverted context, with the table inlined. -/
theorem getDecisionHint_rugger (score : ℚ) :
    getDecisionHint score "rugger_check" =
      if 3/10 ≤ score then .deny else if 0 < score then .review else .allow := by
  simp [getDecisionHint, thresholdsFor]

/-- Evaluation of `getDecisionHint` on any standard context is the three-way
closed-below comparison chain. -/
theorem getDecisionHint_standard (score : ℚ) (context : String)
    (h : context ≠ "rugger_check") :
    getDecisionHint score context =
      if (thresholdsFor context).allow ≤ score then .allow
      else if (thresholdsFor context).limit ≤ score then .allow_with_limit
      else if (thresholdsFor context).review ≤ score then .review
      else .deny := by
  simp only [getDecisionHint, h, if_false, ge_iff_le]

/-- Claim C2: `getDecisionHint` matches the table of the spec.  Standard
contexts map score ≥ allow-threshold to `allow`, else score ≥
limit-threshold to `allow_with_limit`, else score ≥ review-threshold to
`review`, else `deny`; the inverted `rugger_check` context maps score ≥
0.3 to `deny`, 0 < score < 0.3 to `review`, and score = 0 to `allow`; all
boundaries are closed-below, and any context outside the explicit table
rows gets the default thresholds (0.6, 0.3, 0.1). -/
theorem getDecisionHint_matches_spec (score : ℚ) (context : String) :
    (context ≠ "rugger_check" →
      (score ≥ (thresholdsFor context).allow →
        getDecisionHint score context = .allow) ∧
      (score < (thresholdsFor context).allow →
        score ≥ (thresholdsFor context).limit →
        getDecisionHint score context = .allow_with_limit) ∧
      (score < (thresholdsFor context).limit →
        score ≥ (thresholdsFor context).review →
        getDecisionHint score context = .review) ∧
      (score < (thresholdsFor context).review →
        getDecisionHint score context = .deny)) ∧
    (score ≥ 3/10 → getDecisionHint score "rugger_check" = .deny) ∧
    (0 < score → score < 3/10 → getDecisionHint score "rugger_check" = .review) ∧
    (getDecisionHint 0 "rugger_check" = .allow) ∧
    (context ≠ "copy_trading" → context ≠ "token_analysis" → context ≠ "kyc" →
      context ≠ "rugger_check" → thresholdsFor context = ⟨6/10, 3/10, 1/10⟩) := by
  refine ⟨fun hctx => ?_, fun h => ?_, fun h1 h2 => ?_, ?_, fun h1 h2 h3 h4 => ?_⟩
  · obtain ⟨hrl, hla⟩ := thresholdsFor_standard_mono context hctx
    rw [getDecisionHint_standard score context hctx]
    refine ⟨fun h => ?_, fun ha hl => ?_, fun hl hr => ?_, fun hr => ?_⟩ <;>
      split_ifs <;> first | rfl | linarith
  · rw [getDecisionHint_rugger]
    simp [h]
  · rw [getDecisionHint_rugger]
    rw [if_neg (by linarith), if_pos h1]
  · rw [getDecisionHint_rugger]
    norm_num
  · unfold thresholdsFor
    simp [h1, h2, h3, h4]

/-- Witness for C2: concrete boundary evaluations through the theorem. -/
theorem getDecisionHint_matches_spec_witness :
    getDecisionHint (3/10) "rugger_check" = .deny ∧
    getDecisionHint (7/10) "copy_trading" = .allow :=
  ⟨(getDecisionHint_matches_spec (3/10) "rugger_check").2.1 (by norm_num),
   ((getDecisionHint_matches_spec (7/10) "copy_trading").1 (by decide)).1
     (le_refl _)⟩

/-- Claim C5: when the entity is absent from the store, or present with
zero registry entries matching the requested context, `queryTrust`
returns exactly the neutral result: score 0, decision hint `review`,
empty provenance. -/
theorem queryTrust_neutral_when_no_data (s : Store)
    (entityType identifier context : String) :
    (neutralResponse entityType identifier context).score = 0 ∧
    (neutralResponse entityType identifier context).decision_hint = .review ∧
    (neutralResponse entityType identifier context).provenance = [] ∧
    (findEntity s entityType identifier = none →
      queryTrust s entityType identifier context =
        neutralResponse entityType identifier context) ∧
    (∀ e, findEntity s entityType identifier = some e →
      matchingEntries e context = [] →
      queryTrust s entityType identifier context =
        neutralResponse entityType identifier context) := by
  refine ⟨rfl, rfl, rfl, fun h => ?_, fun e he hm => ?_⟩
  · unfold queryTrust
    rw [h]
  · unfold queryTrust
    rw [he]
    simp [hm]

/-- Witness for C5: the empty store and a store whose only entity has no
entry in the requested context both yield the neutral result. -/
theorem queryTrust_neutral_when_no_data_witness :
    queryTrust ⟨[]⟩ "wallet" "W3" "copy_trading" =
      neutralResponse "wallet" "W3" "copy_trading" :=
  (queryTrust_neutral_when_no_data ⟨[]⟩ "wallet" "W3" "copy_trading").2.2.2.1 rfl

/-- Claim C3: every inbound request to a paid endpoint writes exactly one
PaymentLedger row, whatever the outcome: each control path of
`x402Middleware` performs exactly one insert, and the ledger interface
used by the source is insert-only (no update or delete is ever issued),
so no row is mutated after insertion. -/
theorem x402Middleware_exactly_one_ledger_row (cfg : MwConfig)
    (parse : String → Option Payload) (fac : Facilitator) (priceUsd : ℚ)
    (requestId : String) (req : MwRequest) :
    (x402Middleware cfg parse fac priceUsd requestId req).ledger.length = 1 := by
  simp only [x402Middleware]
  split
  · split <;> rfl
  · split
    · split
      · split
        · split <;> rfl
        · rfl
      · rfl
    · rfl

/-- Amended claim C8: the single ledger row of a granted request has
status `completed`, and the single row of every denied request has status
`pending` — including denials where a payment attempt reached the
facilitator and failed verification or settlement; the source never
writes status `failed`. -/
theorem x402Middleware_ledger_status (cfg : MwConfig)
    (parse : String → Option Payload) (fac : Facilitator) (priceUsd : ℚ)
    (requestId : String) (req : MwRequest) :
    ((x402Middleware cfg parse fac priceUsd requestId req).ledger.map
        fun r => r.status) =
      [if (x402Middleware cfg parse fac priceUsd requestId req).isGranted
       then "completed" else "pending"] := by
  simp only [x402Middleware]
  split
  · split <;> rfl
  · split
    · split
      · split
        · split <;> rfl
        · rfl
      · rfl
    · rfl

/-- A concrete facilitator that rejects every verification and
settlement, exhibiting a failed payment attempt. -/
def rejectingFacilitator : Facilitator :=
  { verify := fun _ _ => ⟨false, none, some "invalid_signature"⟩
    settle := fun _ _ => ⟨false, none, some "not_settled"⟩ }

/-- A live configuration whose configured default network is mainnet
`solana`. -/
def liveConfigSolana : MwConfig :=
  { paymentsMode := .live
    payaiMerchantAddress := "MerchantAddr111"
    payaiNetwork := "solana" }

/-- A decoder under which the header decodes to a payload that declares
no network. -/
def parseToNetworkless : String → Option Payload := fun _ => some ⟨none⟩

/-- A decoder under which no header decodes (malformed base64/JSON). -/
def parseNever : String → Option Payload := fun _ => none

/-- A request carrying a (non-empty) X-PAYMENT header. -/
def reqWithPayment : MwRequest :=
  { xPaymentProof := none
    xPayment := some "payload-b64"
    path := "/v1/trust/query"
    resourceUrl := "https://acr.example/v1/trust/query" }

/-- Counterexample for C8: in live mode an actual payment attempt that
reaches the facilitator and fails verification still produces a ledger
row with status `pending`, not `failed`. -/
theorem x402Middleware_failed_attempt_writes_pending :
    (x402Middleware liveConfigSolana parseToNetworkless rejectingFacilitator
        0 "req-8" reqWithPayment).verifyCalls = 1 ∧
    (x402Middleware liveConfigSolana parseToNetworkless rejectingFacilitator
        0 "req-8" reqWithPayment).outcome = .denied402 ∧
    ((x402Middleware liveConfigSolana parseToNetworkless rejectingFacilitator
        0 "req-8" reqWithPayment).ledger.map fun r => r.status) = ["pending"] ∧
    ("pending" : String) ≠ "failed" :=
  ⟨rfl, rfl, rfl, by decide⟩

/-- Claim C6: in live mode, a request whose X-PAYMENT header is absent
(or empty, hence falsy) or whose header does not decode to a payload is
denied with the 402 challenge, and neither facilitator operation is
invoked. -/
theorem x402Middleware_live_malformed_no_facilitator_call (cfg : MwConfig)
    (parse : String → Option Payload) (fac : Facilitator) (priceUsd : ℚ)
    (requestId : String) (req : MwRequest)
    (hmode : cfg.paymentsMode = .live)
    (h : jsTruthy req.xPayment = false ∨ parse (req.xPayment.getD "") = none) :
    (x402Middleware cfg parse fac priceUsd requestId req).verifyCalls = 0 ∧
    (x402Middleware cfg parse fac priceUsd requestId req).settleCalls = 0 ∧
    (x402Middleware cfg parse fac priceUsd requestId req).outcome = .denied402 := by
  simp only [x402Middleware, hmode]
  rcases h with h | h
  · simp [h]
  · by_cases ht : jsTruthy req.xPayment
    · simp [ht, h]
    · simp [ht]

/-- Witness for C6: a live request whose header never decodes makes no
facilitator call. -/
theorem x402Middleware_live_malformed_no_facilitator_call_witness :
    (x402Middleware liveConfigSolana parseNever rejectingFacilitator
        0 "req-6" reqWithPayment).verifyCalls = 0 ∧
    (x402Middleware liveConfigSolana parseNever rejectingFacilitator
        0 "req-6" reqWithPayment).settleCalls = 0 ∧
    (x402Middleware liveConfigSolana parseNever rejectingFacilitator
        0 "req-6" reqWithPayment).outcome = .denied402 :=
  x402Middleware_live_malformed_no_facilitator_call liveConfigSolana parseNever
    rejectingFacilitator 0 "req-6" reqWithPayment rfl (Or.inr rfl)

/-- Counterexample for C9: with the configured default network set to
mainnet `solana`, a payload that declares no network is verified against
requirement network `solana-devnet` (the hard-coded fallback), not the
configured default. -/
theorem x402Middleware_network_ignores_config :
    liveConfigSolana.payaiNetwork = "solana" ∧
    ((x402Middleware liveConfigSolana parseToNetworkless rejectingFacilitator
        0 "req-9" reqWithPayment).requirements.map fun r => r.network) =
      some "solana-devnet" ∧
    ("solana-devnet" : String) ≠ "solana" :=
  ⟨rfl, rfl, by decide⟩

/-- Amended claim C9: in live mode the verification requirement record
uses network = the caller-declared network when present and non-empty,
else the fixed literal `solana-devnet` (the configured default
`config.payaiNetwork` is not consulted on this path), and asset = the
devnet USDC address exactly when the chosen network contains `devnet`,
else the mainnet USDC address. -/
theorem x402Middleware_requirements_network_asset (cfg : MwConfig)
    (parse : String → Option Payload) (fac : Facilitator) (priceUsd : ℚ)
    (requestId : String) (req : MwRequest) (payload : Payload)
    (hmode : cfg.paymentsMode = .live)
    (hhdr : jsTruthy req.xPayment = true)
    (hparse : parse (req.xPayment.getD "") = some payload) :
    (x402Middleware cfg parse fac priceUsd requestId req).requirements =
      some (buildRequirements cfg priceUsd req payload) ∧
    (buildRequirements cfg priceUsd req payload).network =
      effectiveNetwork payload ∧
    (buildRequirements cfg priceUsd req payload).asset =
      (if isDevnetNetwork (effectiveNetwork payload) then USDC_SOLANA_DEVNET
       else USDC_SOLANA) ∧
    (payload.network = none →
      (buildRequirements cfg priceUsd req payload).network = "solana-devnet") := by
  refine ⟨?_, rfl, rfl, fun hn => ?_⟩
  · simp only [x402Middleware, hmode, hhdr, hparse]
    rw [if_neg (by decide : ¬ (PaymentsMode.live = PaymentsMode.mock)),
      if_pos trivial]
    split
    · split <;> rfl
    · rfl
  · simp [buildRequirements, effectiveNetwork, hn]

/-- Witness for C9 (amended): the networkless payload yields requirement
network `solana-devnet` and the devnet USDC asset. -/
theorem x402Middleware_requirements_network_asset_witness :
    (x402Middleware liveConfigSolana parseToNetworkless rejectingFacilitator
        0 "req-9w" reqWithPayment).requirements =
      some (buildRequirements liveConfigSolana 0 reqWithPayment ⟨none⟩) ∧
    (buildRequirements liveConfigSolana 0 reqWithPayment ⟨none⟩).network =
      effectiveNetwork ⟨none⟩ ∧
    (buildRequirements liveConfigSolana 0 reqWithPayment ⟨none⟩).asset =
      (if isDevnetNetwork (effectiveNetwork ⟨none⟩) then USDC_SOLANA_DEVNET
       else USDC_SOLANA) ∧
    ((⟨none⟩ : Payload).network = none →
      (buildRequirements liveConfigSolana 0 reqWithPayment ⟨none⟩).network =
        "solana-devnet") :=
  x402Middleware_requirements_network_asset liveConfigSolana parseToNetworkless
    rejectingFacilitator 0 "req-9w" reqWithPayment ⟨none⟩ rfl rfl rfl

/-- Amended claim C1: for an entity with k ≥ 1 entries matching the
context, the returned score is the equal-weight arithmetic mean of the
entry scores rounded to 4 decimal places with JavaScript `Math.round`
semantics (ties toward positive infinity); this coincides with
round-half-away-from-zero whenever the mean is nonnegative. -/
theorem queryTrust_score_is_rounded_mean (s : Store)
    (entityType identifier context : String) (e : Entity)
    (hfind : findEntity s entityType identifier = some e)
    (hne : matchingEntries e context ≠ []) :
    (queryTrust s entityType identifier context).score =
      round4 (((matchingEntries e context).map fun en => en.score).sum /
        ((matchingEntries e context).length : ℚ)) ∧
    (∀ x : ℚ, 0 ≤ x → round4 x = roundAway4 x) := by
  constructor
  · unfold queryTrust
    rw [hfind]
    have h0 : (matchingEntries e context).isEmpty = false := by
      simpa [List.isEmpty_iff] using hne
    have hw : ((matchingEntries e context).length : ℚ) > 0 := by
      exact_mod_cast List.length_pos.mpr hne
    simp only [h0, Bool.false_eq_true, if_false, if_pos hw]
  · intro x hx
    unfold round4 roundAway4 roundHalfAwayFromZero jsRound
    rw [if_neg (not_lt.mpr (mul_nonneg hx (by norm_num)))]

/-- A store holding one entity with a single matching entry of score 1/2. -/
def wEntity1 : Entity :=
  { entityType := "wallet"
    address := "W1"
    chain := "solana"
    displayName := none
    registryEntries := [⟨"rec-1", ⟨"reg-a", "copy_trading"⟩, 1/2, "2024-01-01T00:00:00Z"⟩] }

def wStore1 : Store := ⟨[wEntity1]⟩

/-- Witness for C1 (amended) at a concrete one-entry store. -/
theorem queryTrust_score_is_rounded_mean_witness :
    (queryTrust wStore1 "wallet" "W1" "copy_trading").score =
      round4 (((matchingEntries wEntity1 "copy_trading").map fun en => en.score).sum /
        ((matchingEntries wEntity1 "copy_trading").length : ℚ)) ∧
    (∀ x : ℚ, 0 ≤ x → round4 x = roundAway4 x) :=
  queryTrust_score_is_rounded_mean wStore1 "wallet" "W1" "copy_trading" wEntity1
    rfl (by simp [matchingEntries, wEntity1])

/-- A store holding one entity whose single matching entry has the
negative score -0.00005. -/
def cexEntity1 : Entity :=
  { entityType := "wallet"
    address := "N1"
    chain := "solana"
    displayName := none
    registryEntries := [⟨"rec-n", ⟨"reg-a", "copy_trading"⟩, -1/20000, "t0"⟩] }

def cexStore1 : Store := ⟨[cexEntity1]⟩

/-- Counterexample for C1: with a single matching entry of score
-0.00005, the mean is -0.00005 and `Math.round` returns score 0, whereas
round-half-away-from-zero yields -0.0001 — so the returned score is not
the half-away-from-zero rounding of the mean. -/
theorem queryTrust_rounding_not_half_away :
    (((matchingEntries cexEntity1 "copy_trading").map fun en => en.score).sum /
      ((matchingEntries cexEntity1 "copy_trading").length : ℚ)) = -1/20000 ∧
    (queryTrust cexStore1 "wallet" "N1" "copy_trading").score = 0 ∧
    roundAway4 (-1/20000) = -1/10000 ∧
    (queryTrust cexStore1 "wallet" "N1" "copy_trading").score ≠
      roundAway4 (-1/20000) := by
  have hmean : (((matchingEntries cexEntity1 "copy_trading").map fun en => en.score).sum /
      ((matchingEntries cexEntity1 "copy_trading").length : ℚ)) = -1/20000 := by
    simp [matchingEntries, cexEntity1]
  have hscore : (queryTrust cexStore1 "wallet" "N1" "copy_trading").score = 0 := by
    have hfind : findEntity cexStore1 "wallet" "N1" = some cexEntity1 := rfl
    unfold queryTrust
    rw [hfind]
    simp [matchingEntries, cexEntity1, round4, jsRound]
    norm_num
  have haway : roundAway4 (-1/20000) = -1/10000 := by
    unfold roundAway4 roundHalfAwayFromZero
    norm_num
  refine ⟨hmean, hscore, haway, ?_⟩
  rw [hscore, haway]
  norm_num

/-- Amended claim C7: for an entity with at least one matching entry, the
provenance list has one (registry slug, entry id, computed-at) triple per
contributing entry, in the order the store returns the entries — the
source applies no sorting by registry slug. -/
theorem queryTrust_provenance_in_read_order (s : Store)
    (entityType identifier context : String) (e : Entity)
    (hfind : findEntity s entityType identifier = some e)
    (hne : matchingEntries e context ≠ []) :
    (queryTrust s entityType identifier context).provenance =
      (matchingEntries e context).map fun en =>
        { registry := en.registry.slug
          record_id := en.id
          computed_at := en.computedAt } := by
  unfold queryTrust
  rw [hfind]
  have h0 : (matchingEntries e context).isEmpty = false := by
    simpa [List.isEmpty_iff] using hne
  simp only [h0, Bool.false_eq_true, if_false]

/-- A store whose only entity has two matching entries whose registry
slugs arrive in descending order. -/
def cexEntity7 : Entity :=
  { entityType := "wallet"
    address := "W7"
    chain := "solana"
    displayName := none
    registryEntries :=
      [⟨"rec-b", ⟨"beta-reg", "kyc"⟩, 1/2, "t1"⟩,
       ⟨"rec-a", ⟨"alfa-reg", "kyc"⟩, 1/2, "t2"⟩] }

def cexStore7 : Store := ⟨[cexEntity7]⟩

/-- Witness for C7 (amended) at the concrete two-entry store: provenance
equals the mapped read-order list. -/
theorem queryTrust_provenance_in_read_order_witness :
    (queryTrust cexStore7 "wallet" "W7" "kyc").provenance =
      (matchingEntries cexEntity7 "kyc").map fun en =>
        { registry := en.registry.slug
          record_id := en.id
          computed_at := en.computedAt } :=
  queryTrust_provenance_in_read_order cexStore7 "wallet" "W7" "kyc" cexEntity7
    rfl (by simp [matchingEntries, cexEntity7])

/-- Counterexample for C7: with read order `beta-reg` before `alfa-reg`,
the provenance slugs come back as ["beta-reg", "alfa-reg"], which is not
sorted ascending by registry slug. -/
theorem queryTrust_provenance_not_sorted_by_slug :
    ((queryTrust cexStore7 "wallet" "W7" "kyc").provenance.map fun p => p.registry) =
      ["beta-reg", "alfa-reg"] ∧
    "alfa-reg" < "beta-reg" ∧
    ¬ List.Sorted (fun a b : String => a ≤ b)
      ((queryTrust cexStore7 "wallet" "W7" "kyc").provenance.map fun p => p.registry) := by
  have hlt : "alfa-reg" < "beta-reg" := String.lt_iff_toList_lt.mpr (by decide)
  have hmap : ((queryTrust cexStore7 "wallet" "W7" "kyc").provenance.map
      fun p => p.registry) = ["beta-reg", "alfa-reg"] := by
    have hfind : findEntity cexStore7 "wallet" "W7" = some cexEntity7 := rfl
    unfold queryTrust
    rw [hfind]
    simp [matchingEntries, cexEntity7]
  refine ⟨hmap, hlt, ?_⟩
  rw [hmap]
  intro hs
  have hle : ("beta-reg" : String) ≤ "alfa-reg" :=
    (List.sorted_cons.mp hs).1 _ (by simp)
  exact absurd hlt (not_lt.mpr hle)

/-- The single entity of `storeHint`, with one entry of score 0.59996 in
a context using the default thresholds. -/
def entityHint : Entity :=
  { entityType := "wallet"
    address := "W10"
    chain := "solana"
    displayName := none
    registryEntries :=
      [⟨"rec-10", ⟨"social-reg", "social_verification"⟩, 14999/25000, "t3"⟩] }

def storeHint : Store := ⟨[entityHint]⟩

/-- Claim C10: both `queryTrust` and `queryEntityTrust` compute the
decision hint from the unrounded mean while reporting the rounded mean as
the score.  With one entry of score 0.59996 under default thresholds the
reported score is 0.6 (whose tier is `allow`, rank 3) while the returned
hint is `allow_with_limit` (rank 2): the reported score lies in a
strictly higher tier than the returned hint. -/
theorem decision_hint_uses_unrounded_mean :
    round4 (14999/25000) = 3/5 ∧
    getDecisionHint (14999/25000) "social_verification" = .allow_with_limit ∧
    (queryTrust storeHint "wallet" "W10" "social_verification").score = 3/5 ∧
    (queryTrust storeHint "wallet" "W10" "social_verification").decision_hint =
      .allow_with_limit ∧
    ((queryEntityTrust storeHint "W10" (some "social_verification")).map
        fun r => (r.score, r.decision_hint)) = [(3/5, .allow_with_limit)] ∧
    getDecisionHint (3/5) "social_verification" = .allow ∧
    hintRank (getDecisionHint (3/5) "social_verification") >
      hintRank ((queryTrust storeHint "wallet" "W10" "social_verification").decision_hint) := by
  have hfind : findEntity storeHint "wallet" "W10" = some entityHint := rfl
  have hround : round4 (14999/25000 : ℚ) = 3/5 := by
    unfold round4 jsRound
    norm_num
  have hhint : getDecisionHint (14999/25000) "social_verification" = .allow_with_limit := by
    rw [getDecisionHint_standard _ _ (by decide)]
    simp [thresholdsFor]
    norm_num
  have hallow : getDecisionHint (3/5) "social_verification" = .allow := by
    rw [getDecisionHint_standard _ _ (by decide)]
    simp [thresholdsFor]
    norm_num
  have hscore : (queryTrust storeHint "wallet" "W10" "social_verification").score =
      round4 (14999/25000) := by
    unfold queryTrust
    rw [hfind]
    simp [matchingEntries, entityHint]
  have hdh : (queryTrust storeHint "wallet" "W10" "social_verification").decision_hint =
      getDecisionHint (14999/25000) "social_verification" := by
    unfold queryTrust
    rw [hfind]
    simp [matchingEntries, entityHint]
  have hqe : ((queryEntityTrust storeHint "W10" (some "social_verification")).map
      fun r => (r.score, r.decision_hint)) = [(3/5, Hint.allow_with_limit)] := by
    unfold queryEntityTrust
    simp [findEntitiesByAddress, entriesForContext, groupByContext, storeHint,
      entityHint, hround, hhint]
  refine ⟨hround, hhint, ?_, ?_, hqe, hallow, ?_⟩
  · rw [hscore, hround]
  · rw [hdh, hhint]
  · rw [hdh, hhint, hallow]
    decide

/-- Amended claim C4: the top-N route rejects limit 0 and limits above
100 with a 400 error before any aggregation runs, and accepts limits in
[1,100]; every returned entry matches the requested context (and the
slug allow-list when a non-empty one is given); the result is sorted by
raw entry score descending and has length at most the limit.  Tie order
among equal scores is the store read order — the source provides no
secondary sort key, so ties are not broken by entry identifier. -/
theorem trustTop_filter_sort_bounds (s : Store) (context : String) (limit : ℕ)
    (registrySlugs : Option (List String)) :
    ((limit = 0 ∨ 100 < limit) →
      trustTopRoute s context limit registrySlugs = Except.error 400) ∧
    (1 ≤ limit → limit ≤ 100 →
      trustTopRoute s context limit registrySlugs =
        Except.ok (queryTopEntities s context limit registrySlugs)) ∧
    (queryTopEntities s context limit registrySlugs).length ≤ limit ∧
    List.Sorted scoreDesc (topEntries s context limit registrySlugs) ∧
    (∀ p ∈ topEntries s context limit registrySlugs,
      p.2.registry.context = context ∧
      ∀ l, registrySlugs = some l → l ≠ [] → p.2.registry.slug ∈ l) := by
  refine ⟨fun h => ?_, fun h1 h2 => ?_, ?_, ?_, fun p hp => ?_⟩
  · have hv : trustTopLimitValid limit = false := by
      unfold trustTopLimitValid
      simp
      omega
    unfold trustTopRoute
    simp [hv]
  · have hv : trustTopLimitValid limit = true := by
      unfold trustTopLimitValid
      simp
      omega
    unfold trustTopRoute
    simp [hv]
  · unfold queryTopEntities topEntries
    rw [List.length_map]
    exact List.length_take_le _ _
  · unfold topEntries
    exact List.Pairwise.sublist (List.take_sublist _ _)
      (List.sorted_insertionSort scoreDesc _)
  · unfold topEntries at hp
    have hmem : p ∈ (allEntries s).filter (topFilter context registrySlugs) :=
      ((List.perm_insertionSort scoreDesc _).mem_iff).mp (List.mem_of_mem_take hp)
    have hf := (List.mem_filter.mp hmem).2
    unfold topFilter at hf
    constructor
    · simp only [Bool.and_eq_true, beq_iff_eq] at hf
      exact hf.1
    · intro l hl hlne
      subst hl
      simp only [Bool.and_eq_true, beq_iff_eq] at hf
      have hie : l.isEmpty = false := by
        simpa [List.isEmpty_iff] using hlne
      have hf2 := hf.2
      rw [hie] at hf2
      simpa using hf2

/-- A store holding two entities whose entries tie on score 1 and arrive
with entry identifiers in descending order. -/
def cexStoreTop : Store :=
  ⟨[{ entityType := "wallet"
      address := "B"
      chain := "solana"
      displayName := none
      registryEntries := [⟨"b", ⟨"r1", "copy_trading"⟩, 1, "t1"⟩] },
    { entityType := "wallet"
      address := "A"
      chain := "solana"
      displayName := none
      registryEntries := [⟨"a", ⟨"r2", "copy_trading"⟩, 1, "t2"⟩] }]⟩

/-- Witness for C4 (amended): limit 0 is rejected with 400, limit 2 is
accepted. -/
theorem trustTop_filter_sort_bounds_witness :
    trustTopRoute cexStoreTop "copy_trading" 0 none = Except.error 400 ∧
    trustTopRoute cexStoreTop "copy_trading" 2 none =
      Except.ok (queryTopEntities cexStoreTop "copy_trading" 2 none) :=
  ⟨(trustTop_filter_sort_bounds cexStoreTop "copy_trading" 0 none).1 (Or.inl rfl),
   (trustTop_filter_sort_bounds cexStoreTop "copy_trading" 2 none).2.1
     (by norm_num) (by norm_num)⟩

/-- Counterexample for C4: two entries tie on score 1 with read order
`b` before `a`; the result keeps ids ["b", "a"], so ties are not broken
by entry identifier ascending. -/
theorem queryTopEntities_ties_keep_read_order :
    ((topEntries cexStoreTop "copy_trading" 2 none).map fun p => p.2.id) =
      ["b", "a"] ∧
    ((topEntries cexStoreTop "copy_trading" 2 none).map fun p => p.2.score) =
      [1, 1] ∧
    "a" < "b" ∧
    ¬ List.Sorted (fun x y : String => x ≤ y)
      ((topEntries cexStoreTop "copy_trading" 2 none).map fun p => p.2.id) := by
  have hlt : ("a" : String) < "b" := String.lt_iff_toList_lt.mpr (by decide)
  have hids : ((topEntries cexStoreTop "copy_trading" 2 none).map
      fun p => p.2.id) = ["b", "a"] := by
    simp [topEntries, allEntries, cexStoreTop, topFilter,
      List.insertionSort, List.orderedInsert, scoreDesc]
  have hsc : ((topEntries cexStoreTop "copy_trading" 2 none).map
      fun p => p.2.score) = [1, 1] := by
    simp [topEntries, allEntries, cexStoreTop, topFilter,
      List.insertionSort, List.orderedInsert, scoreDesc]
  refine ⟨hids, hsc, hlt, ?_⟩
  rw [hids]
  intro hs
  have hle : ("b" : String) ≤ "a" := (List.sorted_cons.mp hs).1 _ (by simp)
  exact absurd hlt (not_lt.mpr hle)
